import Mathlib

/-!
Verification development for the EvoMod AI-helpdesk ticket system.

The definitions below are a shallow embedding of the JavaScript source:
  - services/gemini (class GeminiService): analyzeTicket, extractJSON,
    validateAnalysis, getFallbackAnalysis
  - models/ticket.js: the pre-save hooks (ticket numbering, response and
    resolution times), assignTo, addSatisfactionRating, toJSON
  - functions/processTicket.js: the five-step Inngest pipeline
  - routes/ticket.js: POST /:id/satisfaction

JavaScript strings are modelled as Lean String values; all string
operations used by the source (replace, toLowerCase, includes, indexOf,
lastIndexOf, substring, padStart, trim) are re-implemented over character
lists so that every definition evaluates inside the kernel.  Machine
numbers are modelled as Nat or Int.  Mongo documents are plain
structures; `isModified(f)` of mongoose is modelled as a value diff
between the document as loaded and the document as saved.
-/

/-! ### JavaScript string primitives (over character lists) -/

/-- Left brace character, written via its code point. -/
def lbrace : Char := Char.ofNat 123

/-- Right brace character, written via its code point. -/
def rbrace : Char := Char.ofNat 125

/-- Replace every occurrence of a non-empty pattern, scanning left to
right, as a JavaScript global-regex literal replace does.  The Nat is
recursion fuel (each step consumes at least one character, so the input
length is always enough); structural recursion on it keeps the function
kernel-evaluable. -/
def replaceCore (pat rep : List Char) : Nat → List Char → List Char
  | 0, l => l
  | _ + 1, [] => []
  | fuel + 1, c :: rest =>
    if pat.isPrefixOf (c :: rest) ∧ pat ≠ [] then
      rep ++ replaceCore pat rep fuel (rest.drop (pat.length - 1))
    else
      c :: replaceCore pat rep fuel rest

/-- JavaScript `s.replace(/pat/g, rep)` for a literal pattern. -/
def jsReplaceAll (s pat rep : String) : String :=
  String.mk (replaceCore pat.toList rep.toList s.toList.length s.toList)

/-- JavaScript `s.toLowerCase()` (ASCII, which is all the source uses). -/
def jsToLower (s : String) : String := String.mk (s.toList.map Char.toLower)

/-- Does `pat` occur as a contiguous run inside `l`? -/
def containsRun (pat : List Char) : List Char → Bool
  | [] => pat.isEmpty
  | c :: rest => pat.isPrefixOf (c :: rest) || containsRun pat rest

/-- JavaScript `s.includes(sub)`. -/
def jsIncludes (s sub : String) : Bool := containsRun sub.toList s.toList

/-- JavaScript `s.startsWith(p)`. -/
def jsStartsWith (s p : String) : Bool := p.toList.isPrefixOf s.toList

/-- Index of the last occurrence of a character, JavaScript
`s.lastIndexOf(c)` (as an Option instead of -1). -/
def lastIdxOfChar (cs : List Char) (c : Char) : Option Nat :=
  (cs.reverse.findIdx? (· = c)).map (fun i => cs.length - 1 - i)

/-- JavaScript `s.substring(a, b)`: swaps the endpoints when a > b. -/
def jsSubstring (s : String) (a b : Nat) : String :=
  String.mk ((s.toList.take (max a b)).drop (min a b))

/-- JavaScript `s.substring(0, n)`. -/
def jsSubstringTo (s : String) (n : Nat) : String := String.mk (s.toList.take n)

/-- JavaScript `s.padStart(4, "0")`. -/
def jsPadStart4 (s : String) : String :=
  String.mk (List.replicate (4 - s.length) '0' ++ s.toList)

/-- JavaScript `s.trim()` (whitespace from both ends). -/
def jsTrim (s : String) : String :=
  String.mk (((s.toList.dropWhile Char.isWhitespace).reverse.dropWhile
    Char.isWhitespace).reverse)

/-- JavaScript `Math.round(a / b)` for non-negative a and positive b:
round-half-up on the rational a/b. -/
def jsRoundDiv (a b : Nat) : Nat := (2 * a + b) / (2 * b)

/-- JavaScript truthiness of a numeric field that may be undefined:
`undefined` and `0` are falsy, every other number is truthy. -/
def jsTruthyNum : Option Nat → Bool
  | none => false
  | some n => n != 0

/-- Decimal digit value accumulation (Horner), used to read back the
numeric part of a generated ticket number. -/
def digitsVal (a : Nat) (cs : List Char) : Nat :=
  cs.foldl (fun x c => x * 10 + (c.toNat - 48)) a

/-! ### Data model: tickets, users, notifications

Priorities and statuses are the literal strings the mongoose schema
enumerates: priority in \{"low","medium","high"\}, status in
\{"open","in-progress","resolved","closed"\}. -/

/-- One entry of `ticketSchema.comments`. -/
structure Comment where
  user : Nat
  message : String
  isInternal : Bool
  createdAt : Nat
deriving DecidableEq, Repr

/-- The `ticketSchema.satisfaction` sub-document. -/
structure Satisfaction where
  rating : Int
  feedback : String
  submittedAt : Nat
deriving DecidableEq, Repr

/-- A ticket document (models/ticket.js).  Timestamps are milliseconds
since the epoch; `id` stands for the Mongo object id. -/
structure Ticket where
  id : Nat
  ticketNumber : String
  subject : String
  description : String
  category : String
  priority : String
  status : String
  aiCategory : Option String
  aiPriority : Option String
  aiSummary : Option String
  tags : List String
  user : Nat
  assignedTo : Option Nat
  assignedAt : Option Nat
  assignedBy : Option String
  comments : List Comment
  resolvedAt : Option Nat
  closedAt : Option Nat
  responseTime : Option Nat
  resolutionTime : Option Nat
  satisfaction : Option Satisfaction
  createdAt : Nat
deriving DecidableEq, Repr

/-- A user document (models/User.js), restricted to the fields the
pipeline reads. -/
structure ModUser where
  uid : Nat
  name : String
  email : String
  role : String
  isActive : Bool
  skills : List String
deriving DecidableEq, Repr

/-- One enqueued `notification/send` event (the data fields the claims
talk about). -/
structure Notification where
  ntype : String
  recipientEmail : String
  ticketId : Nat
  ticketNumber : String
  reason : Option String
  estimatedResponse : Option String
deriving DecidableEq, Repr

/-- The backing store plus the queue of enqueued notifications and the
current clock, as seen by one pipeline run. -/
structure World where
  tickets : List Ticket
  users : List ModUser
  notifications : List Notification
  now : Nat
deriving Repr

/-! ### models/ticket.js: pre-save time hook and instance methods -/

/-- The second `ticketSchema.pre('save')` hook (lines 162-182): sets
`responseTime` when `assignedTo` was modified to a present value and
`!this.responseTime` holds (note: the JavaScript `!` also treats the
number 0 as unset), and sets `resolvedAt`/`resolutionTime`/`closedAt` on
the corresponding status transitions.  `orig` is the document as loaded,
`t` the document as about to be saved; `isModified(f)` is the diff
between the two. -/
def preSaveTimeHook (orig t : Ticket) (now : Nat) : Ticket :=
  let rt := if t.assignedTo ≠ orig.assignedTo ∧ t.assignedTo.isSome ∧
               jsTruthyNum t.responseTime = false
            then some (jsRoundDiv (now - t.createdAt) 60000) else t.responseTime
  let statusChanged := t.status ≠ orig.status
  let rAt := if statusChanged ∧ t.status = "resolved" ∧ t.resolvedAt = none
             then some now else t.resolvedAt
  let rTime := if statusChanged ∧ t.status = "resolved" ∧ t.resolvedAt = none
               then some (jsRoundDiv (now - t.createdAt) 60000) else t.resolutionTime
  let cAt := if statusChanged ∧ t.status = "closed" ∧ t.closedAt = none
             then some now else t.closedAt
  { t with responseTime := rt, resolvedAt := rAt, resolutionTime := rTime,
           closedAt := cAt }

/-- `ticketSchema.methods.assignTo` (lines 185-191): unconditionally set
assignee, assignment time, assigning actor and status `in-progress`,
then save (which runs the pre-save time hook). -/
def Ticket.assignTo (t : Ticket) (moderatorId : Nat) (whoAssigned : String)
    (now : Nat) : Ticket :=
  preSaveTimeHook t
    { t with assignedTo := some moderatorId, assignedAt := some now,
             assignedBy := some whoAssigned, status := "in-progress" } now

/-- The `feedback ? feedback.trim() : ''` expression of
`addSatisfactionRating`: a missing (or empty, hence falsy) feedback maps
to the empty string. -/
def normalizeFeedback (feedback : Option String) : String :=
  match feedback with
  | some f => if f = "" then "" else jsTrim f
  | none => ""

/-- `ticketSchema.methods.addSatisfactionRating` (lines 208-215):
overwrite the satisfaction sub-document and save. -/
def Ticket.addSatisfactionRating (t : Ticket) (rating : Int)
    (feedback : Option String) (now : Nat) : Ticket :=
  let sat : Satisfaction :=
    { rating := rating, feedback := normalizeFeedback feedback, submittedAt := now }
  preSaveTimeHook t { t with satisfaction := some sat } now

/-- `ticketSchema.methods.toJSON` (lines 282-291): serialize the
document with internal comments filtered out.  The method takes no
requesting-user argument, so the filter applies to every serialization. -/
def Ticket.toJSON (t : Ticket) : Ticket :=
  { t with comments := t.comments.filter (fun c => !c.isInternal) }

/-! ### models/ticket.js: ticket-number generation (first pre-save hook) -/

/-- `countDocuments({ ticketNumber: new RegExp(String.raw{TK-year-} anchored) })`
over a store of already-issued ticket numbers. -/
def ticketYearCount (store : List String) (year : String) : Nat :=
  (store.filter (fun num => jsStartsWith num ("TK-" ++ year ++ "-"))).length

/-- The first `ticketSchema.pre('save')` hook (lines 150-159) on a new
document: number the ticket `TK-<year>-<padStart(count+1, 4, "0")>`. -/
def generateTicketNumber (store : List String) (year : String) : String :=
  "TK-" ++ year ++ "-" ++ jsPadStart4 (Nat.repr (ticketYearCount store year + 1))

/-- Sequential creation of n tickets in one year, starting from an empty
store: each creation runs the numbering hook against the numbers issued
so far. -/
def createTicketNumbers (year : String) : Nat → List String
  | 0 => []
  | n + 1 =>
    let prev := createTicketNumbers year n
    prev ++ [generateTicketNumber prev year]

/-- Does a ticket number have the exact shape TK-(year)-(four decimal
digits)?  This is the shape the specification asserts for every
generated number. -/
def hasFourDigitSeq (year num : String) : Bool :=
  let pre := ("TK-" ++ year ++ "-").toList
  pre.isPrefixOf num.toList &&
    (let rest := num.toList.drop pre.length
     rest.length == 4 && rest.all Char.isDigit)

/-! ### services/gemini.js: GeminiService -/

/-- A parsed JSON value, as `JSON.parse` can return it. -/
inductive JValue where
  | null
  | bool (b : Bool)
  | num (n : Int)
  | str (s : String)
  | arr (elems : List JValue)
  | obj (fields : List (String × JValue))

/-- JavaScript property read `v.key` on a parsed JSON value: `undefined`
(none) unless `v` is an object with that key; on duplicate keys
`JSON.parse` keeps the last one. -/
def JValue.getField : JValue → String → Option JValue
  | .obj fields, key => ((fields.filter (fun kv => kv.1 = key)).map Prod.snd).getLast?
  | _, _ => none

/-- The category enumeration from `validateAnalysis` (identical to the
ticket schema's category enum). -/
def validCategories : List String :=
  ["Technical Issue", "Account Problem", "Feature Request", "Bug Report",
   "General Inquiry", "Billing", "Security", "Performance", "Integration", "Other"]

/-- The priority enumeration from `validateAnalysis`. -/
def validPriorities : List String := ["low", "medium", "high"]

/-- The structurally validated result of the analysis step. -/
structure AnalysisResult where
  aiCategory : String
  aiPriority : String
  aiSummary : String
  suggestedTags : List String
  requiredSkills : List String
deriving DecidableEq, Repr

/-- Read a field as a JavaScript string, `none` when it is absent or has
another type. -/
def asStringField (v : JValue) (key : String) : Option String :=
  match v.getField key with
  | some (.str s) => some s
  | _ => none

/-- Read a field as an array and keep its string entries in order
(`Array.isArray` guard plus `.filter(x => typeof x === 'string')`),
`none` when the field is not an array. -/
def asStringArrayField (v : JValue) (key : String) : Option (List JValue) :=
  match v.getField key with
  | some (.arr xs) => some xs
  | _ => none

/-- Keep the string entries of a list of JSON values. -/
def keepStrings (xs : List JValue) : List String :=
  xs.filterMap (fun v => match v with | .str s => some s | _ => none)

/-- `GeminiService.validateAnalysis` (services/gemini.js lines 350-368):
field-by-field coercion of an arbitrary parsed value into a structurally
valid result. -/
def validateAnalysis (analysis : JValue) : AnalysisResult :=
  { aiCategory :=
      match asStringField analysis "aiCategory" with
      | some s => if validCategories.contains s then s else "Other"
      | none => "Other",
    aiPriority :=
      match asStringField analysis "aiPriority" with
      | some s => if validPriorities.contains s then s else "medium"
      | none => "medium",
    aiSummary :=
      match asStringField analysis "aiSummary" with
      | some s => jsSubstringTo s 1000
      | none => "AI analysis summary not available",
    suggestedTags :=
      match asStringArrayField analysis "suggestedTags" with
      | some xs => keepStrings (xs.take 10)
      | none => [],
    requiredSkills :=
      match asStringArrayField analysis "requiredSkills" with
      | some xs => keepStrings (xs.take 5)
      | none => [] }

/-- The keyword-to-tag dictionary of `getFallbackAnalysis`, in insertion
order (`Object.keys` iterates string keys in that order). -/
def skillKeywords : List (String × String) :=
  [("react", "React"), ("node", "Node.js"), ("javascript", "JavaScript"),
   ("database", "Database"), ("api", "API"), ("frontend", "Frontend"),
   ("backend", "Backend"), ("mobile", "Mobile"), ("web", "Web Development")]

/-- `GeminiService.getFallbackAnalysis` (lines 370-408): the
deterministic keyword fallback used whenever the try block throws. -/
def getFallbackAnalysis (subject description category : String) : AnalysisResult :=
  let text := jsToLower (subject ++ " " ++ description)
  let priority :=
    if jsIncludes text "urgent" || jsIncludes text "critical" ||
       jsIncludes text "down" || jsIncludes text "error" ||
       jsIncludes text "security" || jsIncludes text "hack" then "high"
    else if jsIncludes text "request" || jsIncludes text "question" ||
            jsIncludes text "help" then "low"
    else "medium"
  let tags := skillKeywords.filterMap
    (fun kv => if jsIncludes text kv.1 then some kv.2 else none)
  { aiCategory := if category ≠ "" then category else "General Inquiry",
    aiPriority := priority,
    aiSummary := "Ticket regarding " ++ jsToLower subject ++
      ". Requires technical assistance.",
    suggestedTags := tags.take 5,
    requiredSkills := tags.take 3 }

/-- `GeminiService.extractJSON` (lines 335-348): strip markdown fences,
then cut from the first left brace to the last right brace; throws when
either brace is missing.  The two global regex replaces (fence with
optional newline) are modelled as literal replaces with and without the
trailing newline. -/
def extractJSON (text : String) : Except String String :=
  let cleaned := jsReplaceAll (jsReplaceAll (jsReplaceAll (jsReplaceAll text
    ("``" ++ "`json\n") "") ("``" ++ "`json") "") ("``" ++ "`\n") "") ("``" ++ "`") ""
  let cs := cleaned.toList
  match cs.findIdx? (· = lbrace), lastIdxOfChar cs rbrace with
  | some s, some e => .ok (jsSubstring cleaned s (e + 1))
  | _, _ => .error "No JSON object found in response"

/-- `GeminiService.analyzeTicket` (lines 289-333).  The external pieces
are parameters: `upstream` is the text of the model response (`none`
when `generateContent`/`response.text()` rejected), and `jsonParse` is
the JavaScript `JSON.parse` builtin (`none` when it throws).  Every
throwing path of the try block lands in the catch and yields the
fallback; a parsed `null` also lands there because reading
`analysis.aiCategory` from `null` throws a TypeError inside the try. -/
def analyzeTicket (jsonParse : String → Option JValue)
    (subject description category : String) (upstream : Option String) :
    AnalysisResult :=
  match upstream with
  | none => getFallbackAnalysis subject description category
  | some text =>
    match extractJSON text with
    | .error _ => getFallbackAnalysis subject description category
    | .ok cleaned =>
      match jsonParse cleaned with
      | none => getFallbackAnalysis subject description category
      | some .null => getFallbackAnalysis subject description category
      | some v => validateAnalysis v

/-- Discriminates which of the two layers produced the result of
`analyzeTicket`: `true` when the catch block's fallback ran. -/
def analysisTookFallback (jsonParse : String → Option JValue)
    (upstream : Option String) : Bool :=
  match upstream with
  | none => true
  | some text =>
    match extractJSON text with
    | .error _ => true
    | .ok cleaned =>
      match jsonParse cleaned with
      | none => true
      | some .null => true
      | some _ => false

/-! ### functions/processTicket.js: the five-step pipeline -/

/-- `Ticket.findById` over the store. -/
def findTicket (w : World) (tid : Nat) : Option Ticket :=
  w.tickets.find? (fun t => t.id == tid)

/-- Persist a saved document: replace the stored ticket with the same id. -/
def storeTicket (w : World) (t : Ticket) : World :=
  { w with tickets := w.tickets.map (fun u => if u.id == t.id then t else u) }

/-- `inngest.send` of one `notification/send` event. -/
def sendNotification (w : World) (n : Notification) : World :=
  { w with notifications := w.notifications ++ [n] }

/-- `Ticket.countDocuments({ assignedTo: uid, status: { $in: ['open',
'in-progress'] } })`: the live workload of one moderator. -/
def countActiveAssigned (w : World) (uid : Nat) : Nat :=
  (w.tickets.filter (fun t =>
    t.assignedTo == some uid && (t.status == "open" || t.status == "in-progress"))).length

/-- Does a user's skill set intersect the required skills
(`skills: { $in: requiredSkills }`)? -/
def skillIntersects (requiredSkills : List String) (u : ModUser) : Bool :=
  u.skills.any (fun s => requiredSkills.contains s)

/-- `userSchema.statics.findModeratorsBySkills` (models/User.js lines
112-118): active moderators/admins with at least one required skill,
in store order. -/
def findModeratorsBySkills (users : List ModUser) (requiredSkills : List String) :
    List ModUser :=
  users.filter (fun u =>
    (u.role == "moderator" || u.role == "admin") && u.isActive &&
      skillIntersects requiredSkills u)

/-- A `moderatorsWithWorkload` entry of step 3: a moderator together
with the workload counted for them. -/
structure Cand where
  user : ModUser
  currentWorkload : Nat
deriving DecidableEq, Repr

/-- Stable ascending insertion of one candidate (ties keep the earlier
element first). -/
def insertByWorkload (x : Cand) : List Cand → List Cand
  | [] => [x]
  | y :: ys =>
    if x.currentWorkload ≤ y.currentWorkload then x :: y :: ys
    else y :: insertByWorkload x ys

/-- The `moderatorsWithWorkload.sort((a, b) => a.currentWorkload -
b.currentWorkload)` of step 3.  Since ES2019 `Array.prototype.sort` is
required to be stable, and a stable ascending sort is unique, it is
modelled by stable insertion sort. -/
def sortByWorkload : List Cand → List Cand
  | [] => []
  | x :: xs => insertByWorkload x (sortByWorkload xs)

/-- The first element of minimal workload (first-seen wins on ties); the
head of any stable ascending sort. -/
def firstMinByWorkload : List Cand → Option Cand
  | [] => none
  | x :: xs =>
    match firstMinByWorkload xs with
    | none => some x
    | some m => if x.currentWorkload ≤ m.currentWorkload then some x else some m

/-- Injected environment failures for one pipeline run; each flag makes
the corresponding external call reject (or, for
`ticketGoneBeforeAssign`, makes step 4's `findById` return null because
the ticket was deleted between step 2 and step 4). -/
structure Faults where
  moderatorQueryFails : Bool
  ticketGoneBeforeAssign : Bool
  assignSaveFails : Bool
  assignNotifyFails : Bool
  userNotifyFails : Bool
deriving DecidableEq, Repr

/-- No injected failure. -/
def noFaults : Faults :=
  { moderatorQueryFails := false, ticketGoneBeforeAssign := false,
    assignSaveFails := false, assignNotifyFails := false, userNotifyFails := false }

/-- The `ticket/created` event payload fields the pipeline reads. -/
structure TicketEvent where
  ticketId : Nat
  subject : String
  description : String
  category : String
  userEmail : String
  userName : String
deriving DecidableEq, Repr

/-- Step 2, `update-ticket` (processTicket.js lines 30-54): load the
ticket (not-found throws and is the one fatal error), write the AI
fields, escalate priority to high when the AI priority is high and the
stored one is not, save. -/
def updateTicketStep (w : World) (tid : Nat) (analysis : AnalysisResult) :
    Except String (World × Ticket) :=
  match findTicket w tid with
  | none => .error ("Ticket " ++ Nat.repr tid ++ " not found")
  | some ticket =>
    let t1 := { ticket with
      aiCategory := some analysis.aiCategory,
      aiPriority := some analysis.aiPriority,
      aiSummary := some analysis.aiSummary,
      tags := analysis.suggestedTags }
    let t2 := if analysis.aiPriority = "high" ∧ t1.priority ≠ "high"
              then { t1 with priority := analysis.aiPriority } else t1
    let t3 := preSaveTimeHook ticket t2 w.now
    .ok (storeTicket w t3, t3)

/-- Step 3, `find-moderator` (lines 57-99): empty required skills give
null immediately; any repository error inside the try is caught and
gives null; otherwise filter by skills, annotate with live workload,
stable-sort ascending by workload and take the head. -/
def findModeratorStep (f : Faults) (w : World) (requiredSkills : List String) :
    Option Cand :=
  if requiredSkills.isEmpty then none
  else if f.moderatorQueryFails then none
  else
    let suitable := findModeratorsBySkills w.users requiredSkills
    if suitable.isEmpty then none
    else
      let withWl := suitable.map (fun m => Cand.mk m (countActiveAssigned w m.uid))
      (sortByWorkload withWl).head?

/-- `User.findOne({ role: 'admin', isActive: true })`. -/
def findOneActiveAdmin (users : List ModUser) : Option ModUser :=
  users.find? (fun u => u.role == "admin" && u.isActive)

/-- Step 4, `assign-ticket` (lines 102-150).  There is no try/catch in
this step: a null ticket makes `ticket.assignTo` throw a TypeError, and
a rejected save or `inngest.send` also propagates.  There is no check
that the ticket is already assigned. -/
def assignTicketStep (f : Faults) (w : World) (tid : Nat)
    (assignedModerator : Option Cand) : Except String World :=
  let tk? := if f.ticketGoneBeforeAssign then none else findTicket w tid
  match assignedModerator with
  | some c =>
    match tk? with
    | none => .error "TypeError: null ticket in assign-ticket"
    | some ticket =>
      if f.assignSaveFails then .error "assignment save rejected"
      else
        let t2 := Ticket.assignTo ticket c.user.uid "system" w.now
        let w2 := storeTicket w t2
        if f.assignNotifyFails then .error "notification enqueue rejected"
        else .ok (sendNotification w2
          { ntype := "ticket_assigned", recipientEmail := c.user.email,
            ticketId := tid, ticketNumber := t2.ticketNumber,
            reason := none, estimatedResponse := none })
  | none =>
    match findOneActiveAdmin w.users with
    | some admin =>
      match tk? with
      | none => .error "TypeError: null ticket in assign-ticket"
      | some ticket =>
        if f.assignSaveFails then .error "assignment save rejected"
        else
          let t2 := Ticket.assignTo ticket admin.uid "system" w.now
          let w2 := storeTicket w t2
          if f.assignNotifyFails then .error "notification enqueue rejected"
          else .ok (sendNotification w2
            { ntype := "ticket_assigned_fallback", recipientEmail := admin.email,
              ticketId := tid, ticketNumber := t2.ticketNumber,
              reason := some "No moderator available with required skills",
              estimatedResponse := none })
    | none => .ok w

/-- Step 5, `notify-user` (lines 153-168): enqueue the requester's
confirmation; a rejected `inngest.send` propagates (no try/catch). -/
def notifyUserStep (f : Faults) (w : World) (ev : TicketEvent)
    (ticketNumber : String) (hadModerator : Bool) : Except String World :=
  if f.userNotifyFails then .error "notification enqueue rejected"
  else .ok (sendNotification w
    { ntype := "ticket_created", recipientEmail := ev.userEmail,
      ticketId := ev.ticketId, ticketNumber := ticketNumber, reason := none,
      estimatedResponse := some (if hadModerator then "2-4 hours" else "4-8 hours") })

/-- The result value the Inngest function returns on completion. -/
structure RunResult where
  success : Bool
  assignedModeratorName : String
deriving DecidableEq, Repr

/-- The whole `process-ticket` Inngest function: steps 1 to 5 in order.
Step 1 is `analyzeTicket`, which is total, so its try/rethrow can never
fire. -/
def processTicket (f : Faults) (jsonParse : String → Option JValue)
    (upstream : Option String) (ev : TicketEvent) (w : World) :
    Except String (World × RunResult) := do
  let analysis := analyzeTicket jsonParse ev.subject ev.description ev.category upstream
  let (w2, t2) ← updateTicketStep w ev.ticketId analysis
  let assignedModerator := findModeratorStep f w2 analysis.requiredSkills
  let w3 ← assignTicketStep f w2 ev.ticketId assignedModerator
  let w4 ← notifyUserStep f w3 ev t2.ticketNumber assignedModerator.isSome
  .ok (w4, { success := true,
             assignedModeratorName :=
               (assignedModerator.map (fun c => c.user.name)).getD "Admin (fallback)" })

/-! ### routes/ticket.js: POST /:id/satisfaction -/

/-- The HTTP outcome of the satisfaction route. -/
inductive SatResp where
  | badRating
  | notFound
  | notOwner
  | badStatus
  | accepted
deriving DecidableEq, Repr

/-- `POST /api/tickets/:id/satisfaction` (routes/ticket.js lines
419-456): reject a missing or out-of-range rating (400), a missing
ticket (404), a requester who is not the creator (403), a status other
than resolved/closed (400); otherwise call `addSatisfactionRating`,
which overwrites whatever satisfaction sub-document exists.  A missing
rating and a rating of 0 both fail the `!rating` guard, which the range
test subsumes for numbers. -/
def postSatisfaction (w : World) (tid requesterId : Nat) (rating : Option Int)
    (feedback : Option String) : SatResp × World :=
  match rating with
  | none => (.badRating, w)
  | some r =>
    if r < 1 ∨ r > 5 then (.badRating, w)
    else
      match findTicket w tid with
      | none => (.notFound, w)
      | some t =>
        if t.user ≠ requesterId then (.notOwner, w)
        else if ¬ (t.status = "resolved" ∨ t.status = "closed") then (.badStatus, w)
        else
          let t2 := Ticket.addSatisfactionRating t r feedback w.now
          (.accepted, storeTicket w t2)

/-! ### Derived discriminators and concrete fixtures -/

/-- Did a pipeline run reach the Done state (the Inngest function
returned instead of throwing)? -/
def runsToDone (r : Except String (World × RunResult)) : Bool :=
  match r with
  | .ok _ => true
  | .error _ => false

/-- Rank of a priority string, for the never-downgrade statement. -/
def priorityRank (p : String) : Nat :=
  if p = "high" then 2 else if p = "medium" then 1 else 0

/-- A plain open ticket used as the base of the concrete scenarios. -/
def baseTicket : Ticket :=
  { id := 0, ticketNumber := "TK-2025-0001", subject := "Payment failed",
    description := "urgent, card declined", category := "Billing",
    priority := "medium", status := "open", aiCategory := none,
    aiPriority := none, aiSummary := none, tags := [], user := 5,
    assignedTo := none, assignedAt := none, assignedBy := none,
    comments := [], resolvedAt := none, closedAt := none,
    responseTime := none, resolutionTime := none, satisfaction := none,
    createdAt := 0 }

/-- Ticket created at time 0 and never yet assigned. -/
def c6Ticket : Ticket := { baseTicket with id := 6 }

/-- A skill-matching moderator. -/
def mod7 : ModUser :=
  { uid := 7, name := "Alice", email := "alice@example.com",
    role := "moderator", isActive := true, skills := ["billing"] }

/-- The step-3 candidate entry for `mod7`. -/
def cand7 : Cand := { user := mod7, currentWorkload := 1 }

/-- A ticket that a completed first run already assigned to `mod7`. -/
def t1Assigned : Ticket :=
  { baseTicket with
    id := 1, status := "in-progress", assignedTo := some 7,
    assignedAt := some 50000, assignedBy := some "system",
    responseTime := some 1 }

/-- World after the first completed run: ticket assigned, one assignment
notification already enqueued. -/
def w1Notif : Notification :=
  { ntype := "ticket_assigned", recipientEmail := "alice@example.com",
    ticketId := 1, ticketNumber := "TK-2025-0001", reason := none,
    estimatedResponse := none }

def w1 : World :=
  { tickets := [t1Assigned], users := [mod7], notifications := [w1Notif],
    now := 600000 }

/-- An open unassigned ticket with id 1. -/
def tOpen : Ticket := { baseTicket with id := 1 }

/-- An active moderator whose skills match the fallback analysis of an
"api down" ticket. -/
def modApi : ModUser :=
  { uid := 9, name := "Bob", email := "bob@example.com",
    role := "moderator", isActive := true, skills := ["API"] }

/-- Scenario world for the pipeline runs: one open ticket, one matching
moderator. -/
def w3fix : World :=
  { tickets := [tOpen], users := [modApi], notifications := [], now := 60000 }

/-- A world whose store holds no tickets. -/
def wEmpty : World := { tickets := [], users := [modApi], notifications := [], now := 0 }

/-- The triggering event for the scenario ticket. -/
def ev3 : TicketEvent :=
  { ticketId := 1, subject := "api down", description := "the api is down",
    category := "Technical Issue", userEmail := "user@example.com",
    userName := "User" }

/-- A JSON.parse stand-in for runs whose upstream call already failed
(it is never reached). -/
def jpNone : String → Option JValue := fun _ => none

/-- The ticket is deleted between step 2 and step 4. -/
def faultVanish : Faults := { noFaults with ticketGoneBeforeAssign := true }

/-- The moderator query of step 3 rejects. -/
def faultModQuery : Faults := { noFaults with moderatorQueryFails := true }

/-- The assignment save of step 4 rejects. -/
def faultAssignSave : Faults := { noFaults with assignSaveFails := true }

/-- The notification enqueue of step 4 rejects. -/
def faultAssignNotify : Faults := { noFaults with assignNotifyFails := true }

/-- The notification enqueue of step 5 rejects. -/
def faultUserNotify : Faults := { noFaults with userNotifyFails := true }

/-- Candidate A of the specification's selection example: skills
billing, workload 3. -/
def modA : ModUser :=
  { uid := 21, name := "A", email := "a@example.com", role := "moderator",
    isActive := true, skills := ["billing"] }

/-- Candidate B of the selection example: skills billing and general,
workload 1. -/
def modB : ModUser :=
  { uid := 22, name := "B", email := "b@example.com", role := "moderator",
    isActive := true, skills := ["billing", "general"] }

/-- World realizing the workloads 3 (A) and 1 (B) through stored
tickets. -/
def wC4 : World :=
  { tickets :=
      [{ baseTicket with id := 31, status := "open", assignedTo := some 21 },
       { baseTicket with id := 32, status := "open", assignedTo := some 21 },
       { baseTicket with id := 33, status := "in-progress", assignedTo := some 21 },
       { baseTicket with id := 34, status := "open", assignedTo := some 22 }],
    users := [modA, modB], notifications := [], now := 0 }

/-- An analysis result with high AI priority. -/
def aHigh : AnalysisResult :=
  { aiCategory := "Billing", aiPriority := "high", aiSummary := "urgent billing issue",
    suggestedTags := ["billing"], requiredSkills := ["billing"] }

/-- The raw model-response text whose JSON body carries an empty
summary. -/
def emptySummaryText : String := "\x7b\"aiSummary\": \"\"\x7d"

/-- `JSON.parse` evaluated at `emptySummaryText` (and throwing
elsewhere): the text parses to an object with one field, an empty
string under the key aiSummary. -/
def jpEmptySummary : String → Option JValue := fun s =>
  if s = emptySummaryText then some (.obj [("aiSummary", .str "")]) else none

/-- A model-response text holding an empty JSON object. -/
def emptyObjText : String := "\x7b\x7d"

/-- `JSON.parse` evaluated at `emptyObjText` (and throwing elsewhere). -/
def jpEmptyObj : String → Option JValue := fun s =>
  if s = emptyObjText then some (.obj []) else none

/-- A resolved ticket of user 5 that already carries a satisfaction
rating of 5. -/
def ratedSat : Satisfaction := { rating := 5, feedback := "great", submittedAt := 100 }

def tRated : Ticket :=
  { baseTicket with
    id := 8, status := "resolved", satisfaction := some ratedSat }

/-- World for the satisfaction-route scenarios. -/
def w8 : World := { tickets := [tRated], users := [], notifications := [], now := 500000 }

/-! ### Helper lemmas -/

theorem isPrefixOf_append_self (l r : List Char) : l.isPrefixOf (l ++ r) = true := by
  induction l with
  | nil => simp [List.isPrefixOf]
  | cons a as ih => simp [List.isPrefixOf, ih]

theorem preSaveTimeHook_id (orig t : Ticket) (now : Nat) :
    (preSaveTimeHook orig t now).id = t.id := rfl

theorem preSaveTimeHook_priority (orig t : Ticket) (now : Nat) :
    (preSaveTimeHook orig t now).priority = t.priority := rfl

theorem preSaveTimeHook_status (orig t : Ticket) (now : Nat) :
    (preSaveTimeHook orig t now).status = t.status := rfl

theorem preSaveTimeHook_satisfaction (orig t : Ticket) (now : Nat) :
    (preSaveTimeHook orig t now).satisfaction = t.satisfaction := rfl

/-! ### Claim C9 -/

/-- Claim C9: for every ticket in any status, including resolved and
closed, `assignTo` unconditionally overwrites `assignedTo`,
`assignedAt` and `assignedBy` and sets status `in-progress`; assignment
never preserves a resolved or closed status. -/
theorem assignTo_unconditional_overwrite (t : Ticket) (m : Nat) (who : String) (now : Nat) :
    (Ticket.assignTo t m who now).assignedTo = some m ∧
    (Ticket.assignTo t m who now).assignedAt = some now ∧
    (Ticket.assignTo t m who now).assignedBy = some who ∧
    (Ticket.assignTo t m who now).status = "in-progress" ∧
    (t.status = "resolved" ∨ t.status = "closed" →
      (Ticket.assignTo t m who now).status ≠ t.status) := by
  refine ⟨rfl, rfl, rfl, rfl, ?_⟩
  intro h
  have hst : (Ticket.assignTo t m who now).status = "in-progress" := rfl
  rw [hst]
  rcases h with h | h <;> rw [h] <;> decide

/-- Witness for C9 at a concrete resolved ticket. -/
theorem assignTo_unconditional_overwrite_witness :
    (Ticket.assignTo tRated 3 "mod3" 120000).status = "in-progress" ∧
    (Ticket.assignTo tRated 3 "mod3" 120000).status ≠ tRated.status :=
  ⟨(assignTo_unconditional_overwrite tRated 3 "mod3" 120000).2.2.2.1,
   (assignTo_unconditional_overwrite tRated 3 "mod3" 120000).2.2.2.2 (Or.inl rfl)⟩

/-! ### Claim C10 -/

/-- Claim C10: the serialized form produced by `toJSON` contains exactly
the comments whose isInternal flag is false, for every ticket and
regardless of the requester (the method takes no requester). -/
theorem toJSON_excludes_internal_comments (t : Ticket) (c : Comment) :
    (Ticket.toJSON t).comments = t.comments.filter (fun x => !x.isInternal) ∧
    (c ∈ (Ticket.toJSON t).comments ↔ c ∈ t.comments ∧ c.isInternal = false) := by
  refine ⟨rfl, ?_⟩
  simp [Ticket.toJSON, List.mem_filter]

/-! ### Claim C6 (evidence of the code bug) -/

/-- Claim C6 evidence: `responseTime` is populated with 0 when the first
assignment lands within half a minute of creation, and a later
reassignment then recomputes it (to 120 minutes here), because the
hook's `!this.responseTime` treats the stored 0 as unset.  The claim
(and the hook's comment) say an already-populated responseTime never
changes. -/
theorem responseTime_zero_recomputed_on_reassign :
    (Ticket.assignTo c6Ticket 1 "system" 10000).responseTime = some 0 ∧
    (Ticket.assignTo (Ticket.assignTo c6Ticket 1 "system" 10000) 2 "admin" 7200000).responseTime
      = some 120 := by
  refine ⟨by decide, by decide⟩

/-! ### Claim C5 -/

/-- Claim C5: in step 2, the stored priority becomes high exactly when
the AI priority is high and the stored one was not already high; in
every other case it is unchanged, and the AI output never lowers it. -/
theorem updateTicketStep_eq (w : World) (tid : Nat) (analysis : AnalysisResult)
    (t : Ticket) (hf : findTicket w tid = some t) :
    updateTicketStep w tid analysis =
      (let t1 := { t with
        aiCategory := some analysis.aiCategory,
        aiPriority := some analysis.aiPriority,
        aiSummary := some analysis.aiSummary,
        tags := analysis.suggestedTags }
       let t2 := if analysis.aiPriority = "high" ∧ t1.priority ≠ "high"
                 then { t1 with priority := analysis.aiPriority } else t1
       let t3 := preSaveTimeHook t t2 w.now
       .ok (storeTicket w t3, t3)) := by
  unfold updateTicketStep
  rw [hf]

/-- Claim C5: in step 2, the stored priority becomes high exactly when
the AI priority is high and the stored one was not already high; in
every other case it is unchanged, and the AI output never lowers it. -/
theorem updateTicket_priority_escalation (w : World) (tid : Nat)
    (analysis : AnalysisResult) (t : Ticket)
    (hf : findTicket w tid = some t) :
    ∃ w2 t2, updateTicketStep w tid analysis = .ok (w2, t2) ∧
      ((t2.priority = "high" ∧ t.priority ≠ "high") ↔
        (analysis.aiPriority = "high" ∧ t.priority ≠ "high")) ∧
      (¬ (analysis.aiPriority = "high" ∧ t.priority ≠ "high") →
        t2.priority = t.priority) ∧
      priorityRank t.priority ≤ priorityRank (t2.priority) := by
  refine ⟨_, _, updateTicketStep_eq w tid analysis t hf, ?_, ?_, ?_⟩
  · by_cases hc : analysis.aiPriority = "high" ∧ t.priority ≠ "high"
    · rw [preSaveTimeHook_priority, if_pos hc]
    · rw [preSaveTimeHook_priority, if_neg hc]
      exact ⟨fun h => absurd h.1 h.2, fun h => absurd h hc⟩
  · intro hc
    rw [preSaveTimeHook_priority, if_neg hc]
  · by_cases hc : analysis.aiPriority = "high" ∧ t.priority ≠ "high"
    · rw [preSaveTimeHook_priority, if_pos hc]
      show priorityRank t.priority ≤ priorityRank analysis.aiPriority
      rw [hc.1]
      have h2 : priorityRank "high" = 2 := rfl
      rw [h2]
      unfold priorityRank
      split_ifs <;> omega
    · rw [preSaveTimeHook_priority, if_neg hc]

/-- Witness for C5: a medium-priority ticket escalated by a high AI
priority. -/
theorem updateTicket_priority_escalation_witness :
    ∃ w2 t2, updateTicketStep w3fix 1 aHigh = .ok (w2, t2) ∧
      ((t2.priority = "high" ∧ tOpen.priority ≠ "high") ↔
        (aHigh.aiPriority = "high" ∧ tOpen.priority ≠ "high")) ∧
      (¬ (aHigh.aiPriority = "high" ∧ tOpen.priority ≠ "high") →
        t2.priority = tOpen.priority) ∧
      priorityRank tOpen.priority ≤ priorityRank (t2.priority) :=
  updateTicket_priority_escalation w3fix 1 aHigh tOpen (by decide)

/-! ### Claim C1 -/

theorem assignTo_resolutionTime (t : Ticket) (m : Nat) (who : String) (now : Nat) :
    (Ticket.assignTo t m who now).resolutionTime = t.resolutionTime := by
  simp only [Ticket.assignTo, preSaveTimeHook]
  rw [if_neg]
  intro h
  exact absurd h.2.1 (by decide)

theorem assignTo_responseTime_of_same (t : Ticket) (m : Nat) (who : String)
    (now : Nat) (ha : t.assignedTo = some m) :
    (Ticket.assignTo t m who now).responseTime = t.responseTime := by
  simp only [Ticket.assignTo, preSaveTimeHook]
  rw [if_neg]
  intro h
  exact h.1 ha.symm

/-- Claim C1 counterexample: step 4, re-run on the already-assigned
ticket of `w1` with the same selected moderator, enqueues a second
ticket_assigned notification (the queue grows from one to two); the
step has no already-assigned check. -/
theorem step4_rerun_counterexample :
    ((assignTicketStep noFaults w1 1 (some cand7)).toOption.map
      (fun w => (w.notifications.length,
        (w.notifications.getLast?).map Notification.ntype))) =
      some (2, some "ticket_assigned") := by decide

/-- Claim C1 amended: re-running step 4 on a ticket already assigned to
the selected moderator re-executes the assignment rather than skipping
it: the assignee, responseTime and resolutionTime are unchanged, but
one more ticket_assigned notification is enqueued. -/
theorem step4_rerun_amended (w : World) (tid : Nat) (c : Cand) (t : Ticket)
    (hf : findTicket w tid = some t) (ha : t.assignedTo = some c.user.uid) :
    ∃ t2 n2, assignTicketStep noFaults w tid (some c) =
        .ok (sendNotification (storeTicket w t2) n2) ∧
      n2.ntype = "ticket_assigned" ∧
      (sendNotification (storeTicket w t2) n2).notifications =
        w.notifications ++ [n2] ∧
      t2.assignedTo = t.assignedTo ∧
      t2.responseTime = t.responseTime ∧
      t2.resolutionTime = t.resolutionTime := by
  refine ⟨Ticket.assignTo t c.user.uid "system" w.now,
    { ntype := "ticket_assigned", recipientEmail := c.user.email,
      ticketId := tid,
      ticketNumber := (Ticket.assignTo t c.user.uid "system" w.now).ticketNumber,
      reason := none, estimatedResponse := none }, ?_, rfl, rfl, ?_, ?_, ?_⟩
  · simp [assignTicketStep, noFaults, hf]
  · exact ha.symm
  · exact assignTo_responseTime_of_same t c.user.uid "system" w.now ha
  · exact assignTo_resolutionTime t c.user.uid "system" w.now

/-- Witness for the amended C1 at the concrete re-run scenario. -/
theorem step4_rerun_amended_witness :
    ∃ t2 n2, assignTicketStep noFaults w1 1 (some cand7) =
        .ok (sendNotification (storeTicket w1 t2) n2) ∧
      n2.ntype = "ticket_assigned" ∧
      (sendNotification (storeTicket w1 t2) n2).notifications =
        w1.notifications ++ [n2] ∧
      t2.assignedTo = t1Assigned.assignedTo ∧
      t2.responseTime = t1Assigned.responseTime ∧
      t2.resolutionTime = t1Assigned.resolutionTime :=
  step4_rerun_amended w1 1 cand7 t1Assigned (by decide) (by decide)

/-! ### Claim C3 -/

theorem find?_store (l : List Ticket) (tid : Nat) (t0 t : Ticket)
    (h : l.find? (fun x => x.id == tid) = some t0) (hid : t.id = t0.id) :
    (l.map (fun u => if u.id == t.id then t else u)).find?
      (fun x => x.id == tid) = some t := by
  induction l with
  | nil => simp at h
  | cons a as ih =>
    cases hsc : (a.id == tid) with
    | true =>
      simp only [List.find?_cons, hsc, cond_true] at h
      injection h with h0
      have hbeq : (a.id == t.id) = true := by
        simp only [beq_iff_eq] at *
        rw [hid, ← h0]
      have hpt : (t.id == tid) = true := by
        simp only [beq_iff_eq] at *
        rw [hid, ← h0]
        exact hsc
      rw [List.map_cons, if_pos hbeq]
      simp only [List.find?_cons, hpt, cond_true]
    | false =>
      simp only [List.find?_cons, hsc, cond_false] at h
      have ht0 : (t0.id == tid) = true := by simpa using List.find?_some h
      have hne : (a.id == t.id) = false := by
        simp only [beq_iff_eq, beq_eq_false_iff_ne, ne_eq] at *
        rw [hid, ht0]
        exact hsc
      have hne2 : ¬ ((a.id == t.id) = true) := by simp [hne]
      rw [List.map_cons, if_neg hne2]
      simp only [List.find?_cons, hsc, cond_false]
      exact ih h

theorem findTicket_store (w : World) (tid : Nat) (t0 t : Ticket)
    (h : findTicket w tid = some t0) (hid : t.id = t0.id) :
    findTicket (storeTicket w t) tid = some t := by
  unfold findTicket storeTicket at *
  exact find?_store w.tickets tid t0 t h hid

theorem findModeratorStep_fault (w : World) (skills : List String) :
    findModeratorStep faultModQuery w skills = none := by
  unfold findModeratorStep
  by_cases h : skills.isEmpty <;> simp [h, faultModQuery, noFaults]

theorem updateTicketStep_ok_shape (w : World) (tid : Nat)
    (analysis : AnalysisResult) (t : Ticket) (hf : findTicket w tid = some t) :
    ∃ t3, updateTicketStep w tid analysis = .ok (storeTicket w t3, t3) ∧
      t3.id = t.id := by
  refine ⟨_, updateTicketStep_eq w tid analysis t hf, ?_⟩
  rw [preSaveTimeHook_id, apply_ite Ticket.id]
  simp

theorem processTicket_modquery_ok (w : World) (ev : TicketEvent)
    (jp : String → Option JValue) (up : Option String) (t : Ticket)
    (hf : findTicket w ev.ticketId = some t) :
    runsToDone (processTicket faultModQuery jp up ev w) = true := by
  obtain ⟨t3, hstep, hid⟩ := updateTicketStep_ok_shape w ev.ticketId
    (analyzeTicket jp ev.subject ev.description ev.category up) t hf
  simp only [processTicket]
  rw [hstep]
  simp only [Bind.bind, Except.bind]
  rw [findModeratorStep_fault]
  have hft := findTicket_store w ev.ticketId t t3 hf hid
  cases hadm : findOneActiveAdmin (storeTicket w t3).users with
  | none =>
    simp [assignTicketStep, faultModQuery, noFaults, hadm, notifyUserStep, runsToDone]
  | some adm =>
    simp [assignTicketStep, faultModQuery, noFaults, hadm, hft, notifyUserStep,
      runsToDone]

/-- Claim C3 counterexample: the ticket vanishing between step 2 and
step 4 makes the run abort (step 4 dereferences the null ticket with no
try/catch), so this error is not absorbed and the run does not reach
Done. -/
theorem pipeline_vanish_counterexample :
    runsToDone (processTicket faultVanish jpNone none ev3 w3fix) = false := by
  decide

/-- Claim C3 amended: step 2's ticket-not-found is fatal, and a step-3
moderator-query error is absorbed (the run still completes via the
admin-fallback path); but an error in step 4 or 5 is not absorbed: the
ticket vanishing before step 4, a rejected assignment save, and a
rejected notification enqueue in step 4 or step 5 each abort the run. -/
theorem pipeline_failure_semantics_amended (w : World) (ev : TicketEvent)
    (jp : String → Option JValue) (up : Option String) (f : Faults) (t : Ticket) :
    (findTicket w ev.ticketId = none →
      runsToDone (processTicket f jp up ev w) = false) ∧
    (findTicket w ev.ticketId = some t →
      runsToDone (processTicket faultModQuery jp up ev w) = true) ∧
    runsToDone (processTicket faultVanish jpNone none ev3 w3fix) = false ∧
    runsToDone (processTicket faultAssignSave jpNone none ev3 w3fix) = false ∧
    runsToDone (processTicket faultAssignNotify jpNone none ev3 w3fix) = false ∧
    runsToDone (processTicket faultUserNotify jpNone none ev3 w3fix) = false := by
  refine ⟨?_, ?_, by decide, by decide, by decide, by decide⟩
  · intro h
    unfold processTicket updateTicketStep
    rw [h]
    rfl
  · intro h
    exact processTicket_modquery_ok w ev jp up t h

/-- Witness for the amended C3: a run on an empty store aborts; a run
with a failing moderator query completes. -/
theorem pipeline_failure_semantics_amended_witness :
    runsToDone (processTicket noFaults jpNone none ev3 wEmpty) = false ∧
    runsToDone (processTicket faultModQuery jpNone none ev3 w3fix) = true :=
  ⟨(pipeline_failure_semantics_amended wEmpty ev3 jpNone none noFaults tOpen).1
      (by decide),
   (pipeline_failure_semantics_amended w3fix ev3 jpNone none noFaults tOpen).2.1
      (by decide)⟩

/-! ### Claim C4 -/

theorem insertByWorkload_head (x : Cand) (l : List Cand) :
    (insertByWorkload x l).head? =
      match l.head? with
      | none => some x
      | some y => if x.currentWorkload ≤ y.currentWorkload then some x
                  else some y := by
  cases l with
  | nil => rfl
  | cons y ys =>
    simp only [insertByWorkload, List.head?_cons]
    split <;> simp

theorem firstMin_none_iff (l : List Cand) :
    firstMinByWorkload l = none ↔ l = [] := by
  cases l with
  | nil => simp [firstMinByWorkload]
  | cons x xs =>
    simp only [firstMinByWorkload]
    cases firstMinByWorkload xs
    · simp
    · simp only [List.cons_ne_nil, iff_false]
      split <;> simp

theorem sortByWorkload_head (l : List Cand) :
    (sortByWorkload l).head? = firstMinByWorkload l := by
  induction l with
  | nil => rfl
  | cons x xs ih =>
    simp only [sortByWorkload]
    rw [insertByWorkload_head, ih]
    simp only [firstMinByWorkload]

theorem firstMin_decomp (l : List Cand) (c : Cand)
    (h : firstMinByWorkload l = some c) :
    ∃ pre post, l = pre ++ c :: post ∧
      (∀ y ∈ pre, c.currentWorkload < y.currentWorkload) ∧
      (∀ y ∈ post, c.currentWorkload ≤ y.currentWorkload) := by
  induction l generalizing c with
  | nil => simp [firstMinByWorkload] at h
  | cons x xs ih =>
    cases hm : firstMinByWorkload xs with
    | none =>
      simp only [firstMinByWorkload, hm] at h
      injection h with h0
      subst h0
      have hnil : xs = [] := (firstMin_none_iff xs).mp hm
      subst hnil
      exact ⟨[], [], rfl, by simp, by simp⟩
    | some m =>
      simp only [firstMinByWorkload, hm] at h
      obtain ⟨pre, post, hsplit, hpre, hpost⟩ := ih m hm
      by_cases hle : x.currentWorkload ≤ m.currentWorkload
      · rw [if_pos hle] at h
        injection h with h0
        subst h0
        refine ⟨[], xs, rfl, by simp, ?_⟩
        intro y hy
        rw [hsplit] at hy
        rcases List.mem_append.mp hy with hy | hy
        · exact le_trans hle (le_of_lt (hpre y hy))
        · rcases List.mem_cons.mp hy with hy | hy
          · subst hy; exact hle
          · exact le_trans hle (hpost y hy)
      · rw [if_neg hle] at h
        injection h with h0
        subst h0
        refine ⟨x :: pre, post, by rw [hsplit]; rfl, ?_, hpost⟩
        intro y hy
        rcases List.mem_cons.mp hy with hy | hy
        · subst hy; omega
        · exact hpre y hy

/-- Claim C4: step 3's selection returns none on empty required skills
and on an empty skill-matching candidate set; otherwise it returns the
skill-matching candidate with minimal live workload, earliest in store
order on ties (the decomposition: everything before the winner has
strictly larger workload, everything after at least as large), and a
result exists whenever some eligible candidate matches. -/
theorem findModerator_selection_spec (f : Faults) (w : World)
    (required : List String)
    (hq : f.moderatorQueryFails = false)
    (helig : ∀ u ∈ w.users, (u.role = "moderator" ∨ u.role = "admin") ∧
      u.isActive = true) :
    (required = [] → findModeratorStep f w required = none) ∧
    ((∀ u ∈ w.users, skillIntersects required u = false) →
      findModeratorStep f w required = none) ∧
    (∀ c, findModeratorStep f w required = some c →
      ∃ pre post,
        (findModeratorsBySkills w.users required).map
          (fun m => Cand.mk m (countActiveAssigned w m.uid)) =
            pre ++ c :: post ∧
        (∀ y ∈ pre, c.currentWorkload < y.currentWorkload) ∧
        (∀ y ∈ post, c.currentWorkload ≤ y.currentWorkload)) ∧
    (required ≠ [] → (∃ u ∈ w.users, skillIntersects required u = true) →
      (findModeratorStep f w required).isSome = true) := by
  refine ⟨?_, ?_, ?_, ?_⟩
  · intro h
    subst h
    simp [findModeratorStep]
  · intro hnone
    unfold findModeratorStep
    by_cases hreq : required.isEmpty
    · simp [hreq]
    · have hfil : findModeratorsBySkills w.users required = [] := by
        unfold findModeratorsBySkills
        apply List.filter_eq_nil_iff.mpr
        intro u hu
        simp [hnone u hu]
      simp [hreq, hq, hfil]
  · intro c hc
    unfold findModeratorStep at hc
    by_cases hreq : required.isEmpty
    · simp [hreq] at hc
    · by_cases hsuit : (findModeratorsBySkills w.users required).isEmpty
      · simp [hreq, hq, hsuit] at hc
      · simp only [hreq, hq, hsuit, if_false, Bool.false_eq_true] at hc
        rw [sortByWorkload_head] at hc
        exact firstMin_decomp _ c hc
  · intro hne hex
    obtain ⟨u, hu, hsk⟩ := hex
    have hreq : required.isEmpty = false := by
      cases required with
      | nil => exact absurd rfl hne
      | cons a l => rfl
    have hmem : u ∈ findModeratorsBySkills w.users required := by
      unfold findModeratorsBySkills
      refine List.mem_filter.mpr ⟨hu, ?_⟩
      obtain ⟨hrole, hact⟩ := helig u hu
      rcases hrole with hrole | hrole <;>
        simp [hrole, hact, hsk]
    have hsuit : (findModeratorsBySkills w.users required).isEmpty = false := by
      cases hfe : findModeratorsBySkills w.users required with
      | nil => rw [hfe] at hmem; simp at hmem
      | cons a l => rfl
    unfold findModeratorStep
    simp only [hreq, hq, hsuit, Bool.false_eq_true, if_false]
    rw [sortByWorkload_head]
    cases hfm : firstMinByWorkload ((findModeratorsBySkills w.users required).map
        (fun m => Cand.mk m (countActiveAssigned w m.uid))) with
    | none =>
      have := (firstMin_none_iff _).mp hfm
      rw [List.map_eq_nil_iff] at this
      rw [this] at hmem
      simp at hmem
    | some m => rfl

/-- Witness for C4 at the specification's example: candidates A
(billing, workload 3, first in store order) and B (billing+general,
workload 1); empty skills give none, and with skills billing a
candidate is selected, which direct evaluation shows is B. -/
theorem findModerator_selection_spec_witness :
    findModeratorStep noFaults wC4 [] = none ∧
    (findModeratorStep noFaults wC4 ["billing"]).isSome = true ∧
    findModeratorStep noFaults wC4 ["billing"] =
      some { user := modB, currentWorkload := 1 } :=
  ⟨(findModerator_selection_spec noFaults wC4 [] rfl (by decide)).1 rfl,
   (findModerator_selection_spec noFaults wC4 ["billing"] rfl (by decide)).2.2.2
     (by decide) ⟨modA, by decide, by decide⟩,
   by decide⟩

/-! ### Claim C2 -/

theorem jsToLower_length (s : String) : (jsToLower s).length = s.length := by
  have h1 : (jsToLower s).length = (s.toList.map Char.toLower).length := rfl
  rw [h1, List.length_map]
  rfl

theorem jsSubstringTo_length_le (s : String) (n : Nat) :
    (jsSubstringTo s n).length ≤ n := by
  have h1 : (jsSubstringTo s n).length = (s.toList.take n).length := rfl
  rw [h1]
  exact List.length_take_le _ _

theorem getFallbackAnalysis_props (s d c : String) :
    (getFallbackAnalysis s d c).aiPriority ∈ validPriorities ∧
    (getFallbackAnalysis s d c).suggestedTags.length ≤ 10 ∧
    (getFallbackAnalysis s d c).requiredSkills.length ≤ 5 ∧
    (getFallbackAnalysis s d c).aiCategory =
      (if c ≠ "" then c else "General Inquiry") ∧
    (getFallbackAnalysis s d c).aiSummary ≠ "" ∧
    (getFallbackAnalysis s d c).aiSummary.length = s.length + 49 := by
  have hlen : (getFallbackAnalysis s d c).aiSummary.length = s.length + 49 := by
    show ("Ticket regarding " ++ jsToLower s ++
      ". Requires technical assistance.").length = s.length + 49
    rw [String.length_append, String.length_append, jsToLower_length]
    have h17 : ("Ticket regarding " : String).length = 17 := rfl
    have h32 : (". Requires technical assistance." : String).length = 32 := rfl
    omega
  refine ⟨?_, ?_, ?_, rfl, ?_, hlen⟩
  · show (if _ then "high" else if _ then "low" else "medium") ∈ validPriorities
    split_ifs <;> decide
  · exact le_trans (List.length_take_le _ _) (by omega)
  · exact le_trans (List.length_take_le _ _) (by omega)
  · intro h
    rw [h] at hlen
    have h0 : ("" : String).length = 0 := rfl
    omega

theorem validateAnalysis_props (v : JValue) :
    (validateAnalysis v).aiCategory ∈ validCategories ∧
    (validateAnalysis v).aiPriority ∈ validPriorities ∧
    (validateAnalysis v).aiSummary.length ≤ 1000 ∧
    (validateAnalysis v).suggestedTags.length ≤ 10 ∧
    (validateAnalysis v).requiredSkills.length ≤ 5 := by
  refine ⟨?_, ?_, ?_, ?_, ?_⟩
  · show (match asStringField v "aiCategory" with
      | some s' => if validCategories.contains s' then s' else "Other"
      | none => "Other") ∈ validCategories
    cases asStringField v "aiCategory" with
    | none => decide
    | some s' =>
      show (if validCategories.contains s' = true then s' else "Other") ∈
        validCategories
      cases hco : validCategories.contains s' with
      | true =>
        rw [if_pos rfl]
        exact List.mem_of_elem_eq_true hco
      | false =>
        rw [if_neg (by simp [hco])]
        decide
  · show (match asStringField v "aiPriority" with
      | some s' => if validPriorities.contains s' then s' else "medium"
      | none => "medium") ∈ validPriorities
    cases asStringField v "aiPriority" with
    | none => decide
    | some s' =>
      show (if validPriorities.contains s' = true then s' else "medium") ∈
        validPriorities
      cases hco : validPriorities.contains s' with
      | true =>
        rw [if_pos rfl]
        exact List.mem_of_elem_eq_true hco
      | false =>
        rw [if_neg (by simp [hco])]
        decide
  · show (match asStringField v "aiSummary" with
      | some s' => jsSubstringTo s' 1000
      | none => "AI analysis summary not available").length ≤ 1000
    cases asStringField v "aiSummary" with
    | none => decide
    | some s' => exact jsSubstringTo_length_le s' 1000
  · show (match asStringArrayField v "suggestedTags" with
      | some xs => keepStrings (xs.take 10)
      | none => []).length ≤ 10
    cases asStringArrayField v "suggestedTags" with
    | none => decide
    | some xs =>
      exact le_trans (List.length_filterMap_le _ _) (List.length_take_le _ _)
  · show (match asStringArrayField v "requiredSkills" with
      | some xs => keepStrings (xs.take 5)
      | none => []).length ≤ 5
    cases asStringArrayField v "requiredSkills" with
    | none => decide
    | some xs =>
      exact le_trans (List.length_filterMap_le _ _) (List.length_take_le _ _)

theorem analyzeTicket_cases (jp : String → Option JValue)
    (s d c : String) (up : Option String) :
    (analyzeTicket jp s d c up = getFallbackAnalysis s d c ∧
      analysisTookFallback jp up = true) ∨
    (∃ v, analyzeTicket jp s d c up = validateAnalysis v ∧
      analysisTookFallback jp up = false) := by
  cases up with
  | none => exact Or.inl ⟨rfl, rfl⟩
  | some text =>
    cases hE : extractJSON text with
    | error e =>
      exact Or.inl ⟨by simp [analyzeTicket, hE], by simp [analysisTookFallback, hE]⟩
    | ok cleaned =>
      cases hp : jp cleaned with
      | none =>
        exact Or.inl ⟨by simp [analyzeTicket, hE, hp],
          by simp [analysisTookFallback, hE, hp]⟩
      | some v =>
        cases v with
        | null =>
          exact Or.inl ⟨by simp [analyzeTicket, hE, hp],
            by simp [analysisTookFallback, hE, hp]⟩
        | bool b =>
          exact Or.inr ⟨JValue.bool b, by simp [analyzeTicket, hE, hp],
            by simp [analysisTookFallback, hE, hp]⟩
        | num n =>
          exact Or.inr ⟨JValue.num n, by simp [analyzeTicket, hE, hp],
            by simp [analysisTookFallback, hE, hp]⟩
        | str s2 =>
          exact Or.inr ⟨JValue.str s2, by simp [analyzeTicket, hE, hp],
            by simp [analysisTookFallback, hE, hp]⟩
        | arr xs =>
          exact Or.inr ⟨JValue.arr xs, by simp [analyzeTicket, hE, hp],
            by simp [analysisTookFallback, hE, hp]⟩
        | obj fs =>
          exact Or.inr ⟨JValue.obj fs, by simp [analyzeTicket, hE, hp],
            by simp [analysisTookFallback, hE, hp]⟩

/-- Claim C2 amended: `analyzeTicket` is total (never raises) and
always returns a priority in the enumeration, at most 10 tags and at
most 5 skills; on the validation path the category is in the ten-value
enumeration and the summary is truncated to at most 1000 characters
(but may be empty when the upstream summary is the empty string); on
the fallback path the category is the caller's category (or General
Inquiry when empty, hence in the enumeration exactly when the caller's
is) and the summary is the non-empty stock sentence of length
49 + the subject's length, with no 1000-character truncation. -/
theorem analyzeTicket_structural_validity (jp : String → Option JValue)
    (s d c : String) (up : Option String) :
    (analyzeTicket jp s d c up).aiPriority ∈ validPriorities ∧
    (analyzeTicket jp s d c up).suggestedTags.length ≤ 10 ∧
    (analyzeTicket jp s d c up).requiredSkills.length ≤ 5 ∧
    (analysisTookFallback jp up = false →
      (analyzeTicket jp s d c up).aiCategory ∈ validCategories ∧
      (analyzeTicket jp s d c up).aiSummary.length ≤ 1000) ∧
    (analysisTookFallback jp up = true →
      (analyzeTicket jp s d c up).aiCategory =
        (if c ≠ "" then c else "General Inquiry") ∧
      (analyzeTicket jp s d c up).aiSummary ≠ "" ∧
      (analyzeTicket jp s d c up).aiSummary.length = s.length + 49) := by
  rcases analyzeTicket_cases jp s d c up with ⟨hA, hF⟩ | ⟨v, hA, hF⟩
  · rw [hA, hF]
    obtain ⟨h1, h2, h3, h4, h5, h6⟩ := getFallbackAnalysis_props s d c
    exact ⟨h1, h2, h3, fun h => absurd h (by decide), fun _ => ⟨h4, h5, h6⟩⟩
  · rw [hA, hF]
    obtain ⟨g1, g2, g3, g4, g5⟩ := validateAnalysis_props v
    exact ⟨g2, g4, g5, fun _ => ⟨g1, g3⟩, fun h => absurd h (by decide)⟩

/-- Claim C2 counterexample: an upstream response whose JSON body is
the object with aiSummary bound to the empty string passes validation
and yields an empty summary, violating the claim's "summary is a
non-empty string". -/
theorem analyzeTicket_empty_summary_counterexample :
    (analyzeTicket jpEmptySummary "Login fails" "Cannot log in"
      "Account Problem" (some emptySummaryText)).aiSummary = "" := by decide

/-- Witness for the amended C2: a validation-path run (empty JSON
object) and a fallback-path run (upstream throw). -/
theorem analyzeTicket_structural_validity_witness :
    ((analyzeTicket jpEmptyObj "s" "d" "Billing" (some emptyObjText)).aiCategory
        ∈ validCategories ∧
      (analyzeTicket jpEmptyObj "s" "d" "Billing"
        (some emptyObjText)).aiSummary.length ≤ 1000) ∧
    (analyzeTicket jpNone "s" "d" "" none).aiSummary ≠ "" :=
  ⟨(analyzeTicket_structural_validity jpEmptyObj "s" "d" "Billing"
      (some emptyObjText)).2.2.2.1 (by decide),
   ((analyzeTicket_structural_validity jpNone "s" "d" "" none).2.2.2.2
      (by decide)).2.1⟩

/-! ### Claim C7 -/

theorem digitChar_val : ∀ m : Nat, m < 10 → (Nat.digitChar m).toNat - 48 = m := by
  decide

theorem digitsVal_toDigitsCore : ∀ (f n : Nat) (ds : List Char), n < f →
    digitsVal 0 (Nat.toDigitsCore 10 f n ds) = digitsVal n ds := by
  intro f
  induction f with
  | zero => intro n ds h; omega
  | succ f ih =>
    intro n ds h
    show digitsVal 0
      (let d := Nat.digitChar (n % 10)
       let prev := d :: ds
       if n / 10 = 0 then prev else Nat.toDigitsCore 10 f (n / 10) prev) =
      digitsVal n ds
    by_cases h10 : n / 10 = 0
    · rw [if_pos h10]
      have hlt : n < 10 := (Nat.div_eq_zero_iff (by decide)).mp h10
      show digitsVal (0 * 10 + ((Nat.digitChar (n % 10)).toNat - 48)) ds =
        digitsVal n ds
      rw [digitChar_val (n % 10) (Nat.mod_lt n (by decide))]
      rw [Nat.zero_mul, Nat.zero_add, Nat.mod_eq_of_lt hlt]
    · rw [if_neg h10]
      have hn0 : 0 < n := by
        rcases Nat.eq_zero_or_pos n with h0 | h0
        · exact absurd (by rw [h0]) h10
        · exact h0
      have hf : n / 10 < f := by
        have h1 : n / 10 < n := Nat.div_lt_self hn0 (by decide)
        omega
      rw [ih (n / 10) (Nat.digitChar (n % 10) :: ds) hf]
      show digitsVal (n / 10 * 10 + ((Nat.digitChar (n % 10)).toNat - 48)) ds =
        digitsVal n ds
      rw [digitChar_val (n % 10) (Nat.mod_lt n (by decide))]
      have harg : n / 10 * 10 + n % 10 = n := by
        have := Nat.div_add_mod n 10
        omega
      rw [harg]

theorem digitsVal_repr (n : Nat) : digitsVal 0 (Nat.repr n).toList = n := by
  have h := digitsVal_toDigitsCore (n + 1) n [] (Nat.lt_succ_self n)
  exact h

theorem digitsVal_pad (k : Nat) (l : List Char) :
    digitsVal 0 (List.replicate k '0' ++ l) = digitsVal 0 l := by
  induction k with
  | zero => rfl
  | succ k ih =>
    rw [List.replicate_succ '0' k, List.cons_append]
    exact ih

theorem jsPadStart4_length (s : String) : (jsPadStart4 s).length = max 4 s.length := by
  have h : (jsPadStart4 s).length = (4 - s.length) + s.toList.length := by
    show (List.replicate (4 - s.length) '0' ++ s.toList).length = _
    rw [List.length_append, List.length_replicate]
  have h2 : s.toList.length = s.length := rfl
  rw [h, h2]
  omega

theorem generated_startsWith (year pad : String) :
    jsStartsWith ("TK-" ++ year ++ "-" ++ pad) ("TK-" ++ year ++ "-") = true := by
  unfold jsStartsWith
  have hd : ("TK-" ++ year ++ "-" ++ pad).toList =
      ("TK-" ++ year ++ "-").toList ++ pad.toList := by
    show (("TK-" ++ year ++ "-") ++ pad).data = ("TK-" ++ year ++ "-").data ++ pad.data
    rw [String.data_append]
  rw [hd]
  exact isPrefixOf_append_self _ _

theorem createTicketNumbers_closed (year : String) (n : Nat) :
    createTicketNumbers year n = (List.range n).map
      (fun i => "TK-" ++ year ++ "-" ++ jsPadStart4 (Nat.repr (i + 1))) := by
  induction n with
  | zero => rfl
  | succ n ih =>
    show createTicketNumbers year n ++
      [generateTicketNumber (createTicketNumbers year n) year] = _
    rw [ih]
    have hcount : ticketYearCount ((List.range n).map
        (fun i => "TK-" ++ year ++ "-" ++ jsPadStart4 (Nat.repr (i + 1)))) year
        = n := by
      unfold ticketYearCount
      have hall : ∀ num ∈ (List.range n).map
          (fun i => "TK-" ++ year ++ "-" ++ jsPadStart4 (Nat.repr (i + 1))),
          jsStartsWith num ("TK-" ++ year ++ "-") = true := by
        intro num hnum
        obtain ⟨i, hi, heq⟩ := List.mem_map.mp hnum
        rw [← heq]
        exact generated_startsWith year _
      rw [List.filter_eq_self.mpr hall, List.length_map, List.length_range]
    unfold generateTicketNumber
    rw [hcount, List.range_succ, List.map_append]
    rfl

theorem rangeMap_getD (f : Nat → String) (n i : Nat) (h : i < n) :
    ((List.range n).map f).getD i "" = f i := by
  rw [List.getD_eq_getElem?_getD, List.getElem?_map, List.getElem?_range h]
  rfl

/-- Claim C7 amended: under sequential creation within one year, the
i-th generated ticket number is exactly TK-(year)- followed by the
padded decimal of i+1; the numeric value read back from the padded part
is i+1 (so the sequence numbers are 1, 2, ... in creation order:
unique, strictly increasing, no gaps); and the padded part has exactly
four digits only while the yearly count stays at most 9999 (padStart
never shortens, so sequence 10000 has five digits). -/
theorem ticketNumbers_amended (year : String) (n i : Nat) (h : i < n) :
    (createTicketNumbers year n).getD i "" =
      "TK-" ++ year ++ "-" ++ jsPadStart4 (Nat.repr (i + 1)) ∧
    digitsVal 0 (jsPadStart4 (Nat.repr (i + 1))).toList = i + 1 ∧
    (n ≤ 9999 → (jsPadStart4 (Nat.repr (i + 1))).length = 4) := by
  refine ⟨?_, ?_, ?_⟩
  · rw [createTicketNumbers_closed]
    exact rangeMap_getD _ n i h
  · show digitsVal 0 (List.replicate (4 - (Nat.repr (i + 1)).length) '0' ++
      (Nat.repr (i + 1)).toList) = i + 1
    rw [digitsVal_pad]
    exact digitsVal_repr (i + 1)
  · intro hn
    rw [jsPadStart4_length]
    have h4 : i + 1 < 10 ^ 4 := by
      have hp : (10 : Nat) ^ 4 = 10000 := by norm_num
      omega
    have hrl : (Nat.repr (i + 1)).length ≤ 4 := Nat.repr_length (i + 1) 4 (by omega) h4
    exact Nat.max_eq_left hrl

/-- Claim C7 counterexample: with 10000 sequential creations in one
year, the 10000th generated number is TK-2026-10000, whose sequence
part has five digits, not four. -/
theorem ticketNumber_four_digit_counterexample :
    "TK-2026-10000" ∈ createTicketNumbers "2026" 10000 ∧
    hasFourDigitSeq "2026" "TK-2026-10000" = false := by
  constructor
  · rw [createTicketNumbers_closed]
    refine List.mem_map.mpr ⟨9999, List.mem_range.mpr (by omega), ?_⟩
    decide
  · decide

/-- Witness for the amended C7 at year 2025 with three creations. -/
theorem ticketNumbers_amended_witness :
    (createTicketNumbers "2025" 3).getD 2 "" =
      "TK-" ++ "2025" ++ "-" ++ jsPadStart4 (Nat.repr 3) ∧
    digitsVal 0 (jsPadStart4 (Nat.repr 3)).toList = 3 ∧
    (3 ≤ 9999 → (jsPadStart4 (Nat.repr 3)).length = 4) :=
  ticketNumbers_amended "2025" 3 2 (by decide)

/-! ### Claim C8 -/

/-- Claim C8 amended: the rating is accepted exactly when it is in
range, the ticket exists, the requester is the ticket's creator and the
status is resolved or closed — but the route has no once-only guard:
an accepted submission always overwrites the stored satisfaction
sub-document, including one that was already set. -/
theorem satisfaction_route_spec (w : World) (tid uid : Nat) (r : Int)
    (fb : Option String) (t : Ticket) :
    (postSatisfaction w tid uid none fb).1 = SatResp.badRating ∧
    ((r < 1 ∨ r > 5) →
      (postSatisfaction w tid uid (some r) fb).1 = SatResp.badRating) ∧
    (1 ≤ r → r ≤ 5 → findTicket w tid = none →
      (postSatisfaction w tid uid (some r) fb).1 = SatResp.notFound) ∧
    (1 ≤ r → r ≤ 5 → findTicket w tid = some t → t.user ≠ uid →
      (postSatisfaction w tid uid (some r) fb).1 = SatResp.notOwner) ∧
    (1 ≤ r → r ≤ 5 → findTicket w tid = some t → t.user = uid →
      ¬ (t.status = "resolved" ∨ t.status = "closed") →
      (postSatisfaction w tid uid (some r) fb).1 = SatResp.badStatus) ∧
    (1 ≤ r → r ≤ 5 → findTicket w tid = some t → t.user = uid →
      (t.status = "resolved" ∨ t.status = "closed") →
      (postSatisfaction w tid uid (some r) fb) =
        (SatResp.accepted,
          storeTicket w (Ticket.addSatisfactionRating t r fb w.now)) ∧
      (Ticket.addSatisfactionRating t r fb w.now).satisfaction =
        some { rating := r, feedback := normalizeFeedback fb,
               submittedAt := w.now }) := by
  have hshow : ∀ rr : Int, postSatisfaction w tid uid (some rr) fb =
      (if rr < 1 ∨ rr > 5 then (SatResp.badRating, w)
       else match findTicket w tid with
       | none => (SatResp.notFound, w)
       | some t =>
         if t.user ≠ uid then (SatResp.notOwner, w)
         else if ¬ (t.status = "resolved" ∨ t.status = "closed") then
           (SatResp.badStatus, w)
         else (SatResp.accepted,
           storeTicket w (Ticket.addSatisfactionRating t rr fb w.now))) :=
    fun rr => rfl
  have hsome : ∀ rr : Int, 1 ≤ rr → rr ≤ 5 → findTicket w tid = some t →
      postSatisfaction w tid uid (some rr) fb =
        (if t.user ≠ uid then (SatResp.notOwner, w)
         else if ¬ (t.status = "resolved" ∨ t.status = "closed") then
           (SatResp.badStatus, w)
         else (SatResp.accepted,
           storeTicket w (Ticket.addSatisfactionRating t rr fb w.now))) := by
    intro rr h1 h5 hf
    rw [hshow rr, if_neg (by omega), hf]
  refine ⟨rfl, ?_, ?_, ?_, ?_, ?_⟩
  · intro hr
    rw [hshow r, if_pos hr]
  · intro h1 h5 hf
    rw [hshow r, if_neg (by omega), hf]
  · intro h1 h5 hf hne
    rw [hsome r h1 h5 hf, if_pos hne]
  · intro h1 h5 hf heq hns
    rw [hsome r h1 h5 hf, if_neg (fun hx => hx heq), if_pos hns]
  · intro h1 h5 hf heq hst
    refine ⟨?_, rfl⟩
    rw [hsome r h1 h5 hf, if_neg (fun hx => hx heq),
      if_neg (not_not_intro hst)]

/-- Claim C8 counterexample: the resolved ticket of `w8` already
carries rating 5; a second submission by the creator with rating 1 is
accepted and overwrites the stored rating. -/
theorem satisfaction_overwrite_counterexample :
    (postSatisfaction w8 8 5 (some 1) none).1 = SatResp.accepted ∧
    ((findTicket (postSatisfaction w8 8 5 (some 1) none).2 8).map
      (fun t => t.satisfaction.map Satisfaction.rating)) = some (some 1) := by
  decide

/-- Witness for the amended C8 across its acceptance and rejection
branches. -/
theorem satisfaction_route_spec_witness :
    (postSatisfaction w8 8 5 (some 2) none) =
      (SatResp.accepted,
        storeTicket w8 (Ticket.addSatisfactionRating tRated 2 none w8.now)) ∧
    (postSatisfaction w8 99 5 (some 2) none).1 = SatResp.notFound ∧
    (postSatisfaction w8 8 6 (some 2) none).1 = SatResp.notOwner ∧
    (postSatisfaction w8 8 5 (some 9) none).1 = SatResp.badRating ∧
    (postSatisfaction w1 1 5 (some 2) none).1 = SatResp.badStatus ∧
    (postSatisfaction w8 8 5 none none).1 = SatResp.badRating :=
  ⟨((satisfaction_route_spec w8 8 5 2 none tRated).2.2.2.2.2 (by decide)
      (by decide) (by decide) (by decide) (by decide)).1,
   (satisfaction_route_spec w8 99 5 2 none tRated).2.2.1 (by decide)
      (by decide) (by decide),
   (satisfaction_route_spec w8 8 6 2 none tRated).2.2.2.1 (by decide)
      (by decide) (by decide) (by decide),
   (satisfaction_route_spec w8 8 5 9 none tRated).2.1 (by decide),
   (satisfaction_route_spec w1 1 5 2 none t1Assigned).2.2.2.2.1 (by decide)
      (by decide) (by decide) (by decide) (by decide),
   (satisfaction_route_spec w8 8 5 2 none tRated).1⟩
